import Mathlib

/-!
Verification of the workspace tracker (`src/app.js`) against its
natural-language specification.

The application is a small Express/Mongoose web app.  We give a shallow
embedding of its data model and route handlers:

* Mongo documents become Lean structures; each collection is a `List`.
  Mongo ObjectIds are modelled as `Nat` (the claims checked here only
  involve well-formed ids, so the `CastError` branch for malformed ids
  does not arise).
* JavaScript number arithmetic in `computeStats` is idealised as exact
  rational arithmetic; `Math.round` is round-half-towards-plus-infinity,
  i.e. `⌊x + 1/2⌋`.
* Request bodies carry `Option String` fields; a missing field is `none`
  and JavaScript truthiness of such a field is "present and non-empty".
* Each route handler becomes a pure function from the store state (and,
  for broadcasting handlers, the WebSocket connection list) to an
  `Outcome` and the updated state.  `next(err)` followed by the final
  error middleware (`res.status(500).render("error", ...)`) is the
  `Outcome.errorPage` constructor; `res.render` is `Outcome.render`;
  `res.redirect` (optionally preceded by `res.cookie("token", ...)`) is
  `Outcome.redirect`.
* External primitives (bcrypt hashing/compare, jwt signing) are taken as
  function parameters of the handlers that use them, matching the spec,
  which treats them as trusted library services.
-/

namespace App

/-- A user document (`models/User`).  Modelled from the spec:
the `User` model file is not under `src/`; §3 gives its shape:
identity with unique email, display name, password hash. -/
structure User where
  id : Nat
  name : String
  email : String
  passwordHash : String
  deriving Repr, DecidableEq

/-- A project document (`models/Project`).  Modelled from the spec:
the `Project` model file is not under `src/`; §3 gives its shape:
title (required), optional description, progress integer 0–100
defaulting to 0. -/
structure Project where
  id : Nat
  title : String
  description : String
  progress : Nat
  deriving Repr, DecidableEq

/-- A task document (`models/Task`).  Modelled from the spec:
the `Task` model file is not under `src/`; §3 gives its shape:
title (required), completed boolean defaulting to false, required
reference to the owning project. -/
structure Task where
  id : Nat
  title : String
  completed : Bool
  projectId : Nat
  deriving Repr, DecidableEq

/-- The persistent state: the three Mongo collections. -/
structure Store where
  users : List User
  projects : List Project
  tasks : List Task
  deriving Repr, DecidableEq

/-- `Model.findById` / `Model.findOne({_id: ...})`: first document with the
given id, if any. -/
def findTaskById (tasks : List Task) (id : Nat) : Option Task :=
  tasks.find? (fun t => t.id == id)

/-- `User.findOne({ email })`: first user with the given email, if any. -/
def findUserByEmail (users : List User) (email : String) : Option User :=
  users.find? (fun u => u.email == email)

/-- JavaScript `Math.round` on an exact rational: round half towards
plus infinity. -/
def jsRound (x : ℚ) : ℤ := ⌊x + 1/2⌋

/-- One entry of `formattedProjects` in `computeStats`
(`src/app.js:86`–`91`). -/
structure ProjectSummary where
  id : Nat
  name : String
  description : String
  progress : Nat
  deriving Repr, DecidableEq

/-- The stats payload returned by `computeStats` (`src/app.js:93`–`98`). -/
structure Stats where
  totalProjects : Nat
  totalTasks : Nat
  overallCompletion : ℤ
  projects : List ProjectSummary
  deriving Repr, DecidableEq

/-- `computeStats` (`src/app.js:69`–`99`): reads both collections,
derives the global completion percentage from the tasks, and copies each
project's stored `progress` field (with `p.progress || 0`, i.e. `0` when
the field is falsy). -/
def computeStats (s : Store) : Stats :=
  let projects := s.projects
  let tasks := s.tasks
  let totalProjects := projects.length
  let totalTasks := tasks.length
  let overallCompletion : ℤ :=
    if totalTasks > 0 then
      let completedTasks := (tasks.filter (fun t => t.completed)).length
      jsRound ((completedTasks : ℚ) / (totalTasks : ℚ) * 100)
    else 0
  let formattedProjects := projects.map (fun p =>
    { id := p.id
      name := p.title
      description := p.description
      progress := if p.progress == 0 then 0 else p.progress : ProjectSummary })
  { totalProjects := totalProjects
    totalTasks := totalTasks
    overallCompletion := overallCompletion
    projects := formattedProjects }

/-- Number of completed tasks in the store. -/
def completedCount (s : Store) : Nat :=
  (s.tasks.filter (fun t => t.completed)).length

/-- A message pushed over a WebSocket connection: the literal the server
`JSON.stringify`s (`src/app.js:103`, `115`–`121`). -/
inductive Message where
  /-- `{ type: "info", message: ... }` -/
  | info (message : String)
  /-- `{ type: "stats", data: ... }` -/
  | stats (data : Stats)
  deriving Repr, DecidableEq

/-- A WebSocket connection: its `readyState` (1 = OPEN) and the messages
the server has sent it so far. -/
structure Conn where
  readyState : Nat
  sent : List Message
  deriving Repr, DecidableEq

/-- `client.send(message)`. -/
def send (c : Conn) (m : Message) : Conn :=
  { c with sent := c.sent ++ [m] }

/-- `broadcastStats` (`src/app.js:101`–`110`): recompute the stats from
the current store and send the one resulting message to every client
whose `readyState === 1`, leaving every other client untouched. -/
def broadcastStats (st : Store) (conns : List Conn) : List Conn :=
  let stats := computeStats st
  conns.map (fun client =>
    if client.readyState == 1 then send client (Message.stats stats)
    else client)

/-- The `wss.on("connection", ...)` handler (`src/app.js:112`–`122`):
greet the new connection, then send it a fresh stats snapshot. -/
def onConnection (st : Store) (ws : Conn) : Conn :=
  send (send ws (Message.info "Connected to live updates"))
    (Message.stats (computeStats st))

/-- The observable response of a route handler. -/
inductive Outcome where
  /-- `res.render(view, { ..., error })` (HTTP 200). -/
  | render (view : String) (error : Option String)
  /-- `res.redirect(location)`, with the value of any `token` cookie set
  just before (`none` when no cookie is set). -/
  | redirect (location : String) (cookie : Option String)
  /-- `next(err)` reaching the final error middleware:
  `res.status(500).render("error", { error: err })` (`src/app.js:374`–`377`). -/
  | errorPage (error : String)
  deriving Repr, DecidableEq

/-- JavaScript truthiness of a possibly-missing string field:
`undefined` and `""` are falsy. -/
def truthy : Option String → Bool
  | none => false
  | some s => s ≠ ""

/-- Body of `POST /register`. -/
structure RegisterBody where
  name : Option String
  email : Option String
  password : Option String
  confirmPassword : Option String
  deriving Repr, DecidableEq

/-- The `POST /register` handler (`src/app.js:176`–`216`).
`hashPw` stands for `bcrypt.hash(·, 10)` and `sign` for
`jwt.sign({ id, email }, JWT_SECRET, { expiresIn: "7d" })`; `freshId` is
the ObjectId Mongo assigns to the created document.  Returns the
response together with the updated store. -/
def postRegister (hashPw : String → String) (sign : Nat → String → String)
    (freshId : Nat) (st : Store) (body : RegisterBody) : Outcome × Store :=
  if ¬ (truthy body.name ∧ truthy body.email ∧ truthy body.password) then
    (Outcome.render "register" (some "All fields are required."), st)
  else if body.password ≠ body.confirmPassword then
    (Outcome.render "register" (some "Passwords do not match."), st)
  else
    let email := body.email.getD ""
    match findUserByEmail st.users email with
    | some _ =>
        (Outcome.render "register" (some "Email already registered."), st)
    | none =>
        let user : User :=
          { id := freshId
            name := body.name.getD ""
            email := email
            passwordHash := hashPw (body.password.getD "") }
        (Outcome.redirect "/" (some (sign user.id user.email)),
         { st with users := st.users ++ [user] })

/-- Body of `POST /login`. -/
structure LoginBody where
  email : Option String
  password : Option String
  deriving Repr, DecidableEq

/-- The `POST /login` handler (`src/app.js:223`–`254`).  `compare`
stands for `bcrypt.compare(password, user.passwordHash)` and `sign` for
`jwt.sign`.  The store is never written, so only the response is
returned. -/
def postLogin (compare : String → String → Bool)
    (sign : Nat → String → String) (st : Store) (body : LoginBody) :
    Outcome :=
  match findUserByEmail st.users (body.email.getD "") with
  | none => Outcome.render "login" (some "Invalid email or password.")
  | some user =>
      if compare (body.password.getD "") user.passwordHash then
        Outcome.redirect "/" (some (sign user.id user.email))
      else
        Outcome.render "login" (some "Invalid email or password.")

/-- Body of `POST /projects`. -/
structure CreateProjectBody where
  title : Option String
  name : Option String
  description : Option String
  deriving Repr, DecidableEq

/-- `req.body.title || req.body.name` (`src/app.js:295`): the first
field if truthy, otherwise the second (whatever it is). -/
def titleOrName (body : CreateProjectBody) : Option String :=
  if truthy body.title then body.title else body.name

/-- The `POST /projects` handler (`src/app.js:293`–`313`): validate that
a title was supplied, create the project with `progress: 0`, broadcast
the new stats, and redirect.  Returns the response, the updated store
and the updated connection list. -/
def postProjects (freshId : Nat) (st : Store) (conns : List Conn)
    (body : CreateProjectBody) : Outcome × Store × List Conn :=
  let title := titleOrName body
  if ¬ truthy title then
    (Outcome.render "new-project" (some "Project name is required."), st, conns)
  else
    let project : Project :=
      { id := freshId
        title := title.getD ""
        description := body.description.getD ""
        progress := 0 }
    let st' := { st with projects := st.projects ++ [project] }
    (Outcome.redirect "/projects" none, st', broadcastStats st' conns)

/-- The `POST /projects/:id/tasks` handler (`src/app.js:336`–`350`): a
missing title `throw`s, which `next(err)` routes to the generic error
middleware; otherwise the task is created (with the schema default
`completed: false`), stats are broadcast, and the response redirects to
the project page. -/
def postProjectTasks (freshId : Nat) (st : Store) (conns : List Conn)
    (pid : Nat) (title : Option String) : Outcome × Store × List Conn :=
  if ¬ truthy title then
    (Outcome.errorPage "Task title required", st, conns)
  else
    let task : Task :=
      { id := freshId
        title := title.getD ""
        completed := false
        projectId := pid }
    let st' := { st with tasks := st.tasks ++ [task] }
    (Outcome.redirect ("/projects/" ++ toString pid) none, st',
     broadcastStats st' conns)

/-- `task.completed = !task.completed; await task.save()`: persist the
flipped document back into the collection (Mongo documents are keyed by
`_id`). -/
def flipTask (tasks : List Task) (id : Nat) : List Task :=
  tasks.map (fun t => if t.id == id then { t with completed := !t.completed } else t)

/-- The `POST /tasks/:id/toggle` handler (`src/app.js:352`–`363`).  When
`Task.findById` finds no task it returns `null`, and reading
`task.completed` throws a `TypeError` which `next(err)` routes to the
generic error middleware before anything is written; otherwise the
task's `completed` flag is flipped and saved, stats are broadcast, and
the response redirects back. -/
def postTaskToggle (st : Store) (conns : List Conn) (id : Nat) :
    Outcome × Store × List Conn :=
  match findTaskById st.tasks id with
  | none =>
      (Outcome.errorPage "TypeError: Cannot read properties of null", st, conns)
  | some _ =>
      let st' := { st with tasks := flipTask st.tasks id }
      (Outcome.redirect "back" none, st', broadcastStats st' conns)

/-! ## Spec-side definitions and fixtures -/

/-- Modelled from the spec (§4.5): `overallCompletion` =
round(100 × completedTaskCount / totalTaskCount) with standard
round-half-up, defined as 0 when the total task count is 0. -/
def overallCompletionSpec (completed total : ℕ) : ℤ :=
  if total = 0 then 0 else ⌊(100 * completed : ℚ) / total + 1/2⌋

/-- A concrete store used to witness the theorems below: one user, one
project and three tasks, one of which is completed. -/
def demoStore : Store :=
  { users := [{ id := 7, name := "Ada", email := "ada@example.com", passwordHash := "h" }]
    projects := [{ id := 1, title := "P", description := "d", progress := 40 }]
    tasks :=
      [{ id := 1, title := "a", completed := true, projectId := 1 },
       { id := 2, title := "b", completed := false, projectId := 1 },
       { id := 3, title := "c", completed := false, projectId := 1 }] }

/-- Concrete connections used by the witnesses: one open (`readyState`
1), one connecting (0), one closed (3). -/
def demoConns : List Conn :=
  [{ readyState := 1, sent := [] },
   { readyState := 0, sent := [] },
   { readyState := 3, sent := [] }]

/-! ## Theorems -/

/-- C1: for every store, the overall completion computed by
`computeStats` agrees with the round-half-up formula of the spec: it is
0 when there are no tasks, and otherwise it is the unique integer `o`
with `o - 1/2 ≤ 100·completed/total < o + 1/2`. -/
theorem computeStats_overallCompletion_round_half_up (s : Store) :
    (computeStats s).overallCompletion
        = overallCompletionSpec (completedCount s) s.tasks.length
      ∧ (s.tasks.length = 0 → (computeStats s).overallCompletion = 0)
      ∧ (0 < s.tasks.length →
          ((computeStats s).overallCompletion : ℚ) - 1/2
              ≤ 100 * (completedCount s : ℚ) / (s.tasks.length : ℚ)
            ∧ 100 * (completedCount s : ℚ) / (s.tasks.length : ℚ)
              < ((computeStats s).overallCompletion : ℚ) + 1/2) := by
  have hval : (computeStats s).overallCompletion
      = if s.tasks.length > 0
        then jsRound ((completedCount s : ℚ) / (s.tasks.length : ℚ) * 100)
        else 0 := rfl
  by_cases h0 : s.tasks.length = 0
  · simp [hval, h0, overallCompletionSpec]
  · have hpos : 0 < s.tasks.length := Nat.pos_of_ne_zero h0
    have harg : (completedCount s : ℚ) / (s.tasks.length : ℚ) * 100
        = 100 * (completedCount s : ℚ) / (s.tasks.length : ℚ) := by ring
    have hval' : (computeStats s).overallCompletion
        = ⌊100 * (completedCount s : ℚ) / (s.tasks.length : ℚ) + 1/2⌋ := by
      rw [hval, if_pos hpos, jsRound, harg]
    refine ⟨?_, fun h => absurd h h0, fun _ => ?_⟩
    · rw [hval', overallCompletionSpec, if_neg h0]
    · constructor
      · have := Int.floor_le
          (100 * (completedCount s : ℚ) / (s.tasks.length : ℚ) + 1/2)
        rw [hval']
        linarith
      · have := Int.lt_floor_add_one
          (100 * (completedCount s : ℚ) / (s.tasks.length : ℚ) + 1/2)
        rw [hval']
        linarith

/-- Witness for C1 at the concrete store: 1 of 3 tasks completed. -/
theorem computeStats_overallCompletion_round_half_up_witness :
    0 < demoStore.tasks.length
      ∧ (computeStats demoStore).overallCompletion
          = overallCompletionSpec (completedCount demoStore) demoStore.tasks.length
      ∧ ((computeStats demoStore).overallCompletion : ℚ) - 1/2
          ≤ 100 * (completedCount demoStore : ℚ) / (demoStore.tasks.length : ℚ)
      ∧ 100 * (completedCount demoStore : ℚ) / (demoStore.tasks.length : ℚ)
          < ((computeStats demoStore).overallCompletion : ℚ) + 1/2 :=
  ⟨by decide,
   (computeStats_overallCompletion_round_half_up demoStore).1,
   ((computeStats_overallCompletion_round_half_up demoStore).2.2 (by decide)).1,
   ((computeStats_overallCompletion_round_half_up demoStore).2.2 (by decide)).2⟩

/-- C2: toggling a task id that names no existing task produces the
generic error outcome (the 500 error view, not a crash of the model)
and leaves the store and the connections untouched. -/
theorem postTaskToggle_absent_notFound (st : Store) (conns : List Conn)
    (id : Nat) (h : findTaskById st.tasks id = none) :
    postTaskToggle st conns id
      = (Outcome.errorPage "TypeError: Cannot read properties of null", st, conns) := by
  simp [postTaskToggle, h]

/-- Witness for C2: id 99 names no task of the demo store. -/
theorem postTaskToggle_absent_notFound_witness :
    findTaskById demoStore.tasks 99 = none
      ∧ postTaskToggle demoStore demoConns 99
          = (Outcome.errorPage "TypeError: Cannot read properties of null",
             demoStore, demoConns) :=
  ⟨by decide, postTaskToggle_absent_notFound demoStore demoConns 99 (by decide)⟩

/-- C3 counterexample: the claim says every required-field validation
failure re-renders the current view with an inline error rather than
using the generic error renderer, but `POST /projects/:id/tasks` with a
missing title throws, which lands in the generic error middleware: at
this concrete input the outcome is `errorPage`, not any `render`. -/
theorem postProjectTasks_missing_title_generic_renderer :
    (postProjectTasks 9 demoStore demoConns 1 none).1
        = Outcome.errorPage "Task title required"
      ∧ ∀ v e, (postProjectTasks 9 demoStore demoConns 1 none).1
          ≠ Outcome.render v e := by
  refine ⟨rfl, fun v e hre => ?_⟩
  simp [postProjectTasks, truthy] at hre

/-- C3 (amended): a missing required title never writes to the store;
project creation re-renders the creation form with an inline message,
while task creation propagates to the generic error renderer. -/
theorem missing_title_no_store_write (freshId pid : Nat) (st : Store)
    (conns : List Conn) (body : CreateProjectBody) (title : Option String) :
    (truthy (titleOrName body) = false →
      postProjects freshId st conns body
        = (Outcome.render "new-project" (some "Project name is required."),
           st, conns))
    ∧ (truthy title = false →
      postProjectTasks freshId st conns pid title
        = (Outcome.errorPage "Task title required", st, conns)) := by
  constructor
  · intro h
    simp [postProjects, h]
  · intro h
    simp [postProjectTasks, h]

/-- Witness for the amended C3: the empty request body. -/
theorem missing_title_no_store_write_witness :
    truthy (titleOrName { title := none, name := none, description := none })
        = false
      ∧ postProjects 9 demoStore demoConns
          { title := none, name := none, description := none }
          = (Outcome.render "new-project" (some "Project name is required."),
             demoStore, demoConns)
      ∧ truthy (none : Option String) = false
      ∧ postProjectTasks 9 demoStore demoConns 1 none
          = (Outcome.errorPage "Task title required", demoStore, demoConns) :=
  ⟨by decide,
   (missing_title_no_store_write 9 1 demoStore demoConns
      { title := none, name := none, description := none } none).1 (by decide),
   by decide,
   (missing_title_no_store_write 9 1 demoStore demoConns
      { title := none, name := none, description := none } none).2 (by decide)⟩

/-- C4: the per-project `progress` in the stats payload is the stored
`progress` field of each project, and the `projects` component of the
payload does not depend on the tasks at all (so it is never derived
from task completion). -/
theorem computeStats_progress_verbatim (s : Store) (tasks' : List Task) :
    (computeStats s).projects.map (fun p => p.progress)
        = s.projects.map (fun p => p.progress)
      ∧ (computeStats { s with tasks := tasks' }).projects
          = (computeStats s).projects := by
  refine ⟨?_, rfl⟩
  show (s.projects.map _).map _ = _
  rw [List.map_map]
  apply List.map_congr_left
  intro p _
  by_cases hp : p.progress = 0
  · simp [Function.comp, hp]
  · simp [Function.comp, hp]

/-- C5: registering with an already-present email (on an otherwise
well-formed request: all fields present, passwords matching) re-renders
the registration form with the duplicate-identity message and leaves the
store unchanged. -/
theorem postRegister_duplicate_email (hashPw : String → String)
    (sign : Nat → String → String) (freshId : Nat) (st : Store)
    (body : RegisterBody) (u : User)
    (hname : truthy body.name = true) (hemail : truthy body.email = true)
    (hpw : truthy body.password = true)
    (hconfirm : body.password = body.confirmPassword)
    (hdup : findUserByEmail st.users (body.email.getD "") = some u) :
    postRegister hashPw sign freshId st body
      = (Outcome.render "register" (some "Email already registered."), st) := by
  have hconfirm' : ¬ body.password ≠ body.confirmPassword := fun hne => hne hconfirm
  simp [postRegister, hname, hemail, hpw, hconfirm', hdup]

/-- Witness for C5: re-registering the email of the demo user. -/
theorem postRegister_duplicate_email_witness :
    findUserByEmail demoStore.users
        ((some "ada@example.com").getD "")
        = some { id := 7, name := "Ada", email := "ada@example.com",
                 passwordHash := "h" }
      ∧ postRegister (fun s => s) (fun _ e => e) 42 demoStore
          { name := some "Bob", email := some "ada@example.com",
            password := some "pw", confirmPassword := some "pw" }
          = (Outcome.render "register" (some "Email already registered."),
             demoStore) :=
  ⟨by decide,
   postRegister_duplicate_email (fun s => s) (fun _ e => e) 42 demoStore
     { name := some "Bob", email := some "ada@example.com",
       password := some "pw", confirmPassword := some "pw" }
     { id := 7, name := "Ada", email := "ada@example.com", passwordHash := "h" }
     (by decide) (by decide) (by decide) (by decide) (by decide)⟩

/-- Flipping the completed flag of the task with a given id leaves every
id in place, so looking the id up afterwards finds the flipped task. -/
theorem findTaskById_flipTask (tasks : List Task) (id : Nat) :
    findTaskById (flipTask tasks id) id
      = (findTaskById tasks id).map
          (fun t => if t.id == id then { t with completed := !t.completed }
                    else t) := by
  unfold findTaskById flipTask
  rw [List.find?_map]
  have hpred : ((fun t : Task => t.id == id) ∘
        fun t : Task =>
          if t.id == id then { t with completed := !t.completed } else t)
      = fun t : Task => t.id == id := by
    funext t
    show ((if t.id == id then { t with completed := !t.completed } else t).id == id)
        = (t.id == id)
    split
    · rfl
    · rfl
  rw [hpred]

/-- Flipping the completed flag of the same task twice restores the
task list. -/
theorem flipTask_flipTask (tasks : List Task) (id : Nat) :
    flipTask (flipTask tasks id) id = tasks := by
  unfold flipTask
  rw [List.map_map]
  have hid : ∀ t : Task,
      ((fun t : Task =>
          if t.id == id then { t with completed := !t.completed } else t) ∘
        (fun t : Task =>
          if t.id == id then { t with completed := !t.completed } else t)) t
        = t := by
    intro t
    by_cases h : t.id == id
    · simp [Function.comp, h]
    · simp [Function.comp, h]
  rw [List.map_congr_left (fun t _ => hid t)]
  exact List.map_id' tasks

/-- C6: toggling an existing task twice returns the whole store to its
original state, and in particular the task to its original completed
state. -/
theorem postTaskToggle_twice_roundtrip (st : Store) (conns conns' : List Conn)
    (id : Nat) (t : Task) (h : findTaskById st.tasks id = some t) :
    (postTaskToggle (postTaskToggle st conns id).2.1 conns' id).2.1 = st := by
  have h1 : (postTaskToggle st conns id).2.1
      = { st with tasks := flipTask st.tasks id } := by
    simp [postTaskToggle, h]
  rw [h1]
  have h2 : findTaskById (flipTask st.tasks id) id
      = some (if t.id == id then { t with completed := !t.completed } else t) := by
    rw [findTaskById_flipTask, h]
    rfl
  simp [postTaskToggle, h2, flipTask_flipTask]

/-- Witness for C6: toggling demo task 1 twice restores the store. -/
theorem postTaskToggle_twice_roundtrip_witness :
    findTaskById demoStore.tasks 1
        = some { id := 1, title := "a", completed := true, projectId := 1 }
      ∧ (postTaskToggle (postTaskToggle demoStore demoConns 1).2.1
            demoConns 1).2.1 = demoStore :=
  ⟨by decide,
   postTaskToggle_twice_roundtrip demoStore demoConns demoConns 1
     { id := 1, title := "a", completed := true, projectId := 1 } (by decide)⟩

/-- C7: every successful mutation (project creation, task creation,
completion toggle) hands every connection with `readyState` 1 exactly
one new message, the stats snapshot of the post-mutation store, and
leaves every other connection untouched. -/
theorem mutations_broadcast_to_open (freshId pid tid : Nat) (st : Store)
    (conns : List Conn) (body : CreateProjectBody) (title : Option String)
    (t : Task) :
    (truthy (titleOrName body) = true →
      (postProjects freshId st conns body).2.2
        = conns.map (fun c =>
            if c.readyState == 1
            then send c (Message.stats
                (computeStats (postProjects freshId st conns body).2.1))
            else c))
    ∧ (truthy title = true →
      (postProjectTasks freshId st conns pid title).2.2
        = conns.map (fun c =>
            if c.readyState == 1
            then send c (Message.stats
                (computeStats (postProjectTasks freshId st conns pid title).2.1))
            else c))
    ∧ (findTaskById st.tasks tid = some t →
      (postTaskToggle st conns tid).2.2
        = conns.map (fun c =>
            if c.readyState == 1
            then send c (Message.stats
                (computeStats (postTaskToggle st conns tid).2.1))
            else c)) := by
  refine ⟨fun h => ?_, fun h => ?_, fun h => ?_⟩
  · simp [postProjects, broadcastStats, h]
  · simp [postProjectTasks, broadcastStats, h]
  · simp [postTaskToggle, broadcastStats, h]

/-- Witness for C7: all three mutations against the demo store, with one
open, one connecting and one closed connection. -/
theorem mutations_broadcast_to_open_witness :
    truthy (titleOrName { title := some "P2", name := none, description := none })
        = true
      ∧ (postProjects 9 demoStore demoConns
            { title := some "P2", name := none, description := none }).2.2
          = demoConns.map (fun c =>
              if c.readyState == 1
              then send c (Message.stats (computeStats
                  (postProjects 9 demoStore demoConns
                    { title := some "P2", name := none,
                      description := none }).2.1))
              else c)
      ∧ (postProjectTasks 9 demoStore demoConns 1 (some "T")).2.2
          = demoConns.map (fun c =>
              if c.readyState == 1
              then send c (Message.stats (computeStats
                  (postProjectTasks 9 demoStore demoConns 1 (some "T")).2.1))
              else c)
      ∧ (postTaskToggle demoStore demoConns 1).2.2
          = demoConns.map (fun c =>
              if c.readyState == 1
              then send c (Message.stats (computeStats
                  (postTaskToggle demoStore demoConns 1).2.1))
              else c) :=
  ⟨by decide,
   (mutations_broadcast_to_open 9 1 1 demoStore demoConns
      { title := some "P2", name := none, description := none } (some "T")
      { id := 1, title := "a", completed := true, projectId := 1 }).1 (by decide),
   (mutations_broadcast_to_open 9 1 1 demoStore demoConns
      { title := some "P2", name := none, description := none } (some "T")
      { id := 1, title := "a", completed := true, projectId := 1 }).2.1 (by decide),
   (mutations_broadcast_to_open 9 1 1 demoStore demoConns
      { title := some "P2", name := none, description := none } (some "T")
      { id := 1, title := "a", completed := true, projectId := 1 }).2.2
     (by decide)⟩

/-- C8: a login attempt whose email matches no user and a login attempt
with a matching email but a rejected password produce the identical
response: the login form re-rendered with the one generic message, so
the outcome never distinguishes the two failure causes. -/
theorem postLogin_failures_indistinguishable (compare : String → String → Bool)
    (sign : Nat → String → String) (st1 st2 : Store) (b1 b2 : LoginBody)
    (u : User)
    (h1 : findUserByEmail st1.users (b1.email.getD "") = none)
    (h2 : findUserByEmail st2.users (b2.email.getD "") = some u)
    (h3 : compare (b2.password.getD "") u.passwordHash = false) :
    postLogin compare sign st1 b1 = postLogin compare sign st2 b2
      ∧ postLogin compare sign st1 b1
          = Outcome.render "login" (some "Invalid email or password.") := by
  simp [postLogin, h1, h2, h3]

/-- Witness for C8: an unknown email versus the demo user with a
rejected password. -/
theorem postLogin_failures_indistinguishable_witness :
    findUserByEmail demoStore.users ((some "nobody@example.com").getD "") = none
      ∧ findUserByEmail demoStore.users ((some "ada@example.com").getD "")
          = some { id := 7, name := "Ada", email := "ada@example.com",
                   passwordHash := "h" }
      ∧ postLogin (fun _ _ => false) (fun _ e => e) demoStore
            { email := some "nobody@example.com", password := some "pw" }
          = postLogin (fun _ _ => false) (fun _ e => e) demoStore
              { email := some "ada@example.com", password := some "wrong" }
      ∧ postLogin (fun _ _ => false) (fun _ e => e) demoStore
            { email := some "nobody@example.com", password := some "pw" }
          = Outcome.render "login" (some "Invalid email or password.") :=
  ⟨by decide, by decide,
   (postLogin_failures_indistinguishable (fun _ _ => false) (fun _ e => e)
      demoStore demoStore
      { email := some "nobody@example.com", password := some "pw" }
      { email := some "ada@example.com", password := some "wrong" }
      { id := 7, name := "Ada", email := "ada@example.com", passwordHash := "h" }
      (by decide) (by decide) rfl).1,
   (postLogin_failures_indistinguishable (fun _ _ => false) (fun _ e => e)
      demoStore demoStore
      { email := some "nobody@example.com", password := some "pw" }
      { email := some "ada@example.com", password := some "wrong" }
      { id := 7, name := "Ada", email := "ada@example.com", passwordHash := "h" }
      (by decide) (by decide) rfl).2⟩

/-- C9: a registration whose password and confirmPassword differ, with
name, email and password all present, re-renders the form with the
mismatch message and returns the store unchanged; the response is the
same constant for every store, so no store access influences it. -/
theorem postRegister_password_mismatch (hashPw : String → String)
    (sign : Nat → String → String) (freshId : Nat) (st : Store)
    (body : RegisterBody)
    (hname : truthy body.name = true) (hemail : truthy body.email = true)
    (hpw : truthy body.password = true)
    (hmm : body.password ≠ body.confirmPassword) :
    postRegister hashPw sign freshId st body
      = (Outcome.render "register" (some "Passwords do not match."), st) := by
  simp [postRegister, hname, hemail, hpw, hmm]

/-- Witness for C9: a filled-in form whose two password fields differ. -/
theorem postRegister_password_mismatch_witness :
    (some "pw" : Option String) ≠ (some "other" : Option String)
      ∧ postRegister (fun s => s) (fun _ e => e) 42 demoStore
          { name := some "Bob", email := some "bob@example.com",
            password := some "pw", confirmPassword := some "other" }
          = (Outcome.render "register" (some "Passwords do not match."),
             demoStore) :=
  ⟨by decide,
   postRegister_password_mismatch (fun s => s) (fun _ e => e) 42 demoStore
     { name := some "Bob", email := some "bob@example.com",
       password := some "pw", confirmPassword := some "other" }
     (by decide) (by decide) (by decide) (by decide)⟩

/-- C10: toggling an existing task rewrites the store as: users and
projects unchanged, and each task unchanged unless its id is the
toggled one, in which case only its completed field is flipped (title
and project reference are carried over). -/
theorem postTaskToggle_frame (st : Store) (conns : List Conn) (id : Nat)
    (t : Task) (h : findTaskById st.tasks id = some t) :
    (postTaskToggle st conns id).2.1
      = { st with tasks := st.tasks.map (fun tk =>
            if tk.id = id then { tk with completed := !tk.completed }
            else tk) } := by
  simp [postTaskToggle, h, flipTask]

/-- Witness for C10: toggling demo task 1. -/
theorem postTaskToggle_frame_witness :
    findTaskById demoStore.tasks 1
        = some { id := 1, title := "a", completed := true, projectId := 1 }
      ∧ (postTaskToggle demoStore demoConns 1).2.1
          = { demoStore with tasks := demoStore.tasks.map (fun tk =>
                if tk.id = 1 then { tk with completed := !tk.completed }
                else tk) } :=
  ⟨by decide,
   postTaskToggle_frame demoStore demoConns 1
     { id := 1, title := "a", completed := true, projectId := 1 } (by decide)⟩

end App
